import Mathlib

/-!
Verification of `emr_basics.py`, a six-function facade over the Amazon EMR
remote API (run_job_flow, describe_cluster, terminate_cluster, add_step,
list_steps, describe_step).

The embedding models Python values as an inductive `Value` (strings, ints,
booleans, lists, string-keyed dicts, and attribute-bearing objects), Python
exceptions as `PyError` (distinguishing `botocore` `ClientError` from
`KeyError`, `AttributeError`, `IndexError`, `TypeError`), and the Boto3 EMR
client as a function from the request payload to `Except PyError Value`.
Each facade operation is a Lean function returning the operation's outcome
(`Except PyError α`, where `.error` models an exception propagating to the
caller) together with the list of log records it emitted, in order.  A log
record keeps the logging call's level, format string and arguments, mirroring
Python `logging` records.
-/

namespace EmrBasics

/-- A Python value as used by the facade: strings, integers, booleans, lists,
string-keyed dictionaries, and objects exposing named attributes
(security-group and IAM-role objects). -/
inductive Value where
  | str : String → Value
  | int : Int → Value
  | bool : Bool → Value
  | list : List Value → Value
  | dict : List (String × Value) → Value
  | obj : List (String × Value) → Value

/-- A Python exception as relevant to this code: `botocore.exceptions.ClientError`
(carrying its error payload) versus the built-in lookup failures. -/
inductive PyError where
  | clientError : Value → PyError
  | keyError : String → PyError
  | attributeError : String → PyError
  | indexError : String → PyError
  | typeError : String → PyError

/-- Is this exception a `ClientError`?  Only those are caught by the
`except ClientError` blocks of the source. -/
def PyError.isClientError : PyError → Bool
  | .clientError _ => true
  | _ => false

/-- First-match association-list lookup, the shape of all dict lookups here
(every dict this code builds has distinct keys). -/
def lookupAssoc : List (String × Value) → String → Option Value
  | [], _ => none
  | (k, v) :: rest, key => if k = key then some v else lookupAssoc rest key

/-- Python `v[key]` with a string key: succeeds on a dict containing the key,
raises `KeyError` on a dict without it, `TypeError` on anything else. -/
def Value.dictGet : Value → String → Except PyError Value
  | .dict d, key =>
    match lookupAssoc d key with
    | some v => .ok v
    | none => .error (.keyError key)
  | _, _ => .error (.typeError "value is not subscriptable by string key")

/-- Python attribute access `v.attr`: succeeds on an object exposing the
attribute, raises `AttributeError` otherwise. -/
def Value.getAttr : Value → String → Except PyError Value
  | .obj a, key =>
    match lookupAssoc a key with
    | some v => .ok v
    | none => .error (.attributeError key)
  | _, key => .error (.attributeError key)

/-- Python `v[i]` with a non-negative integer index, as used by
`response["StepIds"][0]`. -/
def Value.index : Value → Nat → Except PyError Value
  | .list l, i =>
    match l.get? i with
    | some v => .ok v
    | none => .error (.indexError "list index out of range")
  | .str s, i =>
    match s.toList.get? i with
    | some c => .ok (.str (String.mk [c]))
    | none => .error (.indexError "string index out of range")
  | .dict _, i => .error (.keyError (toString i))
  | _, _ => .error (.typeError "value is not subscriptable by integer index")

/-- Python `len(v)`, as used by `len(steps)` in `list_steps`. -/
def Value.len : Value → Except PyError Int
  | .list l => .ok l.length
  | .str s => .ok s.length
  | .dict d => .ok d.length
  | _ => .error (.typeError "object has no len")

/-- Python iteration (`*v` splat), as used by `*step["script_args"]` and
`*script_args`: lists yield their elements, strings their characters, dicts
their keys; other values are not iterable. -/
def Value.iterate : Value → Except PyError (List Value)
  | .list l => .ok l
  | .str s => .ok (s.toList.map fun c => .str (String.mk [c]))
  | .dict d => .ok (d.map fun p => Value.str p.1)
  | _ => .error (.typeError "value is not iterable")

/-- One record emitted through the module logger: severity level, format
string and format arguments, mirroring a Python `logging` record. -/
structure LogEntry where
  level : String
  msg : String
  args : List Value

/-- The Boto3 EMR client collaborator: each remote call maps a request payload
to either a response payload or a raised exception. -/
def EmrClient : Type := Value → Except PyError Value

/-- One step entry of the `Steps` field built by `run_job_flow`, evaluated in
the source's order: `step["name"]`, then `step["script_uri"]`, then the splat
of `step["script_args"]`. -/
def buildStepEntry (step : Value) : Except PyError Value :=
  match step.dictGet "name" with
  | .error e => .error e
  | .ok n =>
    match step.dictGet "script_uri" with
    | .error e => .error e
    | .ok uri =>
      match step.dictGet "script_args" with
      | .error e => .error e
      | .ok argsVal =>
        match argsVal.iterate with
        | .error e => .error e
        | .ok args =>
          .ok (.dict
            [("Name", n),
             ("ActionOnFailure", .str "CONTINUE"),
             ("HadoopJarStep", .dict
               [("Jar", .str "command-runner.jar"),
                ("Args", .list
                  ([.str "spark-submit", .str "--deploy-mode", .str "cluster", uri] ++ args))])])

/-- The `Steps` list comprehension of `run_job_flow`: step entries in input
order, stopping at the first failing lookup. -/
def buildSteps : List Value → Except PyError (List Value)
  | [] => .ok []
  | s :: rest =>
    match buildStepEntry s with
    | .error e => .error e
    | .ok entry =>
      match buildSteps rest with
      | .error e => .error e
      | .ok entries => .ok (entry :: entries)

/-- The fully assembled `run_job_flow` request payload, once every input
lookup has succeeded. -/
def mkRunJobFlowRequest (name log_uri : String) (keep_alive : Bool)
    (applications : List String) (managerId workerId : Value)
    (stepEntries : List Value) (jfRoleName svcRoleName : Value) : Value :=
  .dict
    [("Name", .str name),
     ("LogUri", .str log_uri),
     ("ReleaseLabel", .str "emr-5.30.1"),
     ("Instances", .dict
       [("MasterInstanceType", .str "m5.xlarge"),
        ("SlaveInstanceType", .str "m5.xlarge"),
        ("InstanceCount", .int 3),
        ("KeepJobFlowAliveWhenNoSteps", .bool keep_alive),
        ("EmrManagedMasterSecurityGroup", managerId),
        ("EmrManagedSlaveSecurityGroup", workerId)]),
     ("Steps", .list stepEntries),
     ("Applications", .list (applications.map fun a => Value.dict [("Name", .str a)])),
     ("JobFlowRole", jfRoleName),
     ("ServiceRole", svcRoleName),
     ("EbsRootVolumeSize", .int 10),
     ("VisibleToAllUsers", .bool true)]

/-- Building the `run_job_flow` request: the keyword arguments of
`emr_client.run_job_flow(...)` evaluate in source order, so the fallible
lookups run in the order `security_groups["manager"].id`,
`security_groups["worker"].id`, the `Steps` comprehension,
`job_flow_role.name`, `service_role.name`; the first failure aborts the
call before any remote request is made. -/
def buildRunJobFlowRequest (name log_uri : String) (keep_alive : Bool)
    (applications : List String) (job_flow_role service_role security_groups : Value)
    (steps : List Value) : Except PyError Value :=
  match security_groups.dictGet "manager" with
  | .error e => .error e
  | .ok managerSg =>
    match managerSg.getAttr "id" with
    | .error e => .error e
    | .ok managerId =>
      match security_groups.dictGet "worker" with
      | .error e => .error e
      | .ok workerSg =>
        match workerSg.getAttr "id" with
        | .error e => .error e
        | .ok workerId =>
          match buildSteps steps with
          | .error e => .error e
          | .ok stepEntries =>
            match job_flow_role.getAttr "name" with
            | .error e => .error e
            | .ok jfRoleName =>
              match service_role.getAttr "name" with
              | .error e => .error e
              | .ok svcRoleName =>
                .ok (mkRunJobFlowRequest name log_uri keep_alive applications
                  managerId workerId stepEntries jfRoleName svcRoleName)

/-- `run_job_flow`: build the request, call the client, extract `JobFlowId`,
log and return it; a `ClientError` from the client is logged once and
re-raised; any other exception propagates without logging. -/
def run_job_flow (name log_uri : String) (keep_alive : Bool)
    (applications : List String) (job_flow_role service_role security_groups : Value)
    (steps : List Value) (emr_client : EmrClient) :
    Except PyError Value × List LogEntry :=
  match buildRunJobFlowRequest name log_uri keep_alive applications job_flow_role
      service_role security_groups steps with
  | .error e => (.error e, [])
  | .ok req =>
    match emr_client req with
    | .error (.clientError p) =>
      (.error (.clientError p), [⟨"ERROR", "Couldn't create cluster.", []⟩])
    | .error e => (.error e, [])
    | .ok response =>
      match response.dictGet "JobFlowId" with
      | .error e => (.error e, [])
      | .ok cluster_id =>
        (.ok cluster_id, [⟨"INFO", "Created cluster %s.", [cluster_id]⟩])

/-- The `describe_cluster` request payload. -/
def mkDescribeClusterRequest (cluster_id : String) : Value :=
  .dict [("ClusterId", .str cluster_id)]

/-- `describe_cluster`: call the client, extract `Cluster`, log its `Name`
and return the record; note the success log reads `cluster["Name"]`, so a
`Cluster` record without a `Name` key raises an uncaught `KeyError`. -/
def describe_cluster (cluster_id : String) (emr_client : EmrClient) :
    Except PyError Value × List LogEntry :=
  match emr_client (mkDescribeClusterRequest cluster_id) with
  | .error (.clientError p) =>
    (.error (.clientError p),
     [⟨"ERROR", "Couldn't get data for cluster %s.", [.str cluster_id]⟩])
  | .error e => (.error e, [])
  | .ok response =>
    match response.dictGet "Cluster" with
    | .error e => (.error e, [])
    | .ok cluster =>
      match cluster.dictGet "Name" with
      | .error e => (.error e, [])
      | .ok clusterName =>
        (.ok cluster, [⟨"INFO", "Got data for cluster %s.", [clusterName]⟩])

/-- The `terminate_job_flows` request payload: a one-element identifier list. -/
def mkTerminateRequest (cluster_id : String) : Value :=
  .dict [("JobFlowIds", .list [.str cluster_id])]

/-- `terminate_cluster`: call the client and log; returns no value. -/
def terminate_cluster (cluster_id : String) (emr_client : EmrClient) :
    Except PyError Unit × List LogEntry :=
  match emr_client (mkTerminateRequest cluster_id) with
  | .error (.clientError p) =>
    (.error (.clientError p),
     [⟨"ERROR", "Couldn't terminate cluster %s.", [.str cluster_id]⟩])
  | .error e => (.error e, [])
  | .ok _ =>
    (.ok (), [⟨"INFO", "Terminated cluster %s.", [.str cluster_id]⟩])

/-- The `add_job_flow_steps` request payload: always exactly one step, with
the fixed job-runner shape and `Args` equal to the three fixed spark-submit
tokens, then the script URI, then the splatted script arguments. -/
def mkAddStepRequest (cluster_id name script_uri : String)
    (script_args : List Value) : Value :=
  .dict
    [("JobFlowId", .str cluster_id),
     ("Steps", .list
       [.dict
         [("Name", .str name),
          ("ActionOnFailure", .str "CONTINUE"),
          ("HadoopJarStep", .dict
            [("Jar", .str "command-runner.jar"),
             ("Args", .list
               ([.str "spark-submit", .str "--deploy-mode", .str "cluster",
                 .str script_uri] ++ script_args))])]])]

/-- `add_step`: call the client, extract `response["StepIds"][0]`, log and
return it. -/
def add_step (cluster_id name script_uri : String) (script_args : List Value)
    (emr_client : EmrClient) : Except PyError Value × List LogEntry :=
  match emr_client (mkAddStepRequest cluster_id name script_uri script_args) with
  | .error (.clientError p) =>
    (.error (.clientError p),
     [⟨"ERROR", "Couldn't start step %s with URI %s.", [.str name, .str script_uri]⟩])
  | .error e => (.error e, [])
  | .ok response =>
    match response.dictGet "StepIds" with
    | .error e => (.error e, [])
    | .ok stepIds =>
      match stepIds.index 0 with
      | .error e => (.error e, [])
      | .ok step_id =>
        (.ok step_id, [⟨"INFO", "Started step with ID %s", [step_id]⟩])

/-- The `list_steps` request payload. -/
def mkListStepsRequest (cluster_id : String) : Value :=
  .dict [("ClusterId", .str cluster_id)]

/-- `list_steps`: call the client, extract `Steps`, log its length and return
it; the success log computes `len(steps)`. -/
def list_steps (cluster_id : String) (emr_client : EmrClient) :
    Except PyError Value × List LogEntry :=
  match emr_client (mkListStepsRequest cluster_id) with
  | .error (.clientError p) =>
    (.error (.clientError p),
     [⟨"ERROR", "Couldn't get steps for cluster %s.", [.str cluster_id]⟩])
  | .error e => (.error e, [])
  | .ok response =>
    match response.dictGet "Steps" with
    | .error e => (.error e, [])
    | .ok steps =>
      match steps.len with
      | .error e => (.error e, [])
      | .ok n =>
        (.ok steps, [⟨"INFO", "Got %s steps for cluster %s.", [.int n, .str cluster_id]⟩])

/-- The `describe_step` request payload. -/
def mkDescribeStepRequest (cluster_id step_id : String) : Value :=
  .dict [("ClusterId", .str cluster_id), ("StepId", .str step_id)]

/-- `describe_step`: call the client, extract `Step`, log and return it. -/
def describe_step (cluster_id step_id : String) (emr_client : EmrClient) :
    Except PyError Value × List LogEntry :=
  match emr_client (mkDescribeStepRequest cluster_id step_id) with
  | .error (.clientError p) =>
    (.error (.clientError p),
     [⟨"ERROR", "Couldn't get data for step %s.", [.str step_id]⟩])
  | .error e => (.error e, [])
  | .ok response =>
    match response.dictGet "Step" with
    | .error e => (.error e, [])
    | .ok step =>
      (.ok step, [⟨"INFO", "Got data for step %s.", [.str step_id]⟩])

/-- A well-formed step specification as the callers of `run_job_flow` supply
it: a dict with keys `name`, `script_uri` and `script_args` (spec data model:
name, script location URI, ordered list of script arguments). -/
def mkStepDict (n uri : String) (args : List Value) : Value :=
  .dict [("name", .str n), ("script_uri", .str uri), ("script_args", .list args)]

/-- The step-entry shape the spec claims for each marshaled step: `Name` from
the step, `ActionOnFailure` fixed to `CONTINUE`, the generic job-runner jar,
and `Args` equal to the three fixed spark-submit tokens, the script URI, then
the script arguments in order. -/
def specStepEntry (n uri : String) (args : List Value) : Value :=
  .dict
    [("Name", .str n),
     ("ActionOnFailure", .str "CONTINUE"),
     ("HadoopJarStep", .dict
       [("Jar", .str "command-runner.jar"),
        ("Args", .list
          ([.str "spark-submit", .str "--deploy-mode", .str "cluster", .str uri] ++ args))])]

/-- A well-formed `security_groups` argument: a dict with `manager` and
`worker` entries, each an object exposing an `id` attribute. -/
def mkSecurityGroups (managerId workerId : String) : Value :=
  .dict
    [("manager", .obj [("id", .str managerId)]),
     ("worker", .obj [("id", .str workerId)])]

/-- A well-formed IAM-role argument: an object exposing a `name` attribute. -/
def mkRole (roleName : String) : Value :=
  .obj [("name", .str roleName)]

/-- Marshaling one well-formed step dict produces exactly the claimed entry
shape. -/
theorem buildStepEntry_mk (n uri : String) (args : List Value) :
    buildStepEntry (mkStepDict n uri args) = .ok (specStepEntry n uri args) := by
  simp [buildStepEntry, mkStepDict, specStepEntry, Value.dictGet, lookupAssoc, Value.iterate]

/-- Marshaling a list of well-formed step dicts produces the claimed entries
in input order. -/
theorem buildSteps_mk (specs : List (String × String × List Value)) :
    buildSteps (specs.map fun t => mkStepDict t.1 t.2.1 t.2.2) =
      .ok (specs.map fun t => specStepEntry t.1 t.2.1 t.2.2) := by
  induction specs with
  | nil => rfl
  | cons t rest ih => simp [buildSteps, buildStepEntry_mk, ih]

/-- Characterization of a successful `run_job_flow` request build: every
input lookup succeeded and the request is the assembled payload over the
extracted values. -/
theorem build_ok_elim {name log_uri : String} {keep_alive : Bool}
    {applications : List String} {jr sr sg : Value} {steps : List Value} {req : Value}
    (h : buildRunJobFlowRequest name log_uri keep_alive applications jr sr sg steps = .ok req) :
    ∃ m mid w wid entries jn sn,
      sg.dictGet "manager" = .ok m ∧ m.getAttr "id" = .ok mid ∧
      sg.dictGet "worker" = .ok w ∧ w.getAttr "id" = .ok wid ∧
      buildSteps steps = .ok entries ∧
      jr.getAttr "name" = .ok jn ∧ sr.getAttr "name" = .ok sn ∧
      req = mkRunJobFlowRequest name log_uri keep_alive applications mid wid entries jn sn := by
  unfold buildRunJobFlowRequest at h
  cases hm : sg.dictGet "manager" with
  | error e => simp only [hm] at h; exact Except.noConfusion h
  | ok m =>
  simp only [hm] at h
  cases hmi : m.getAttr "id" with
  | error e => simp only [hmi] at h; exact Except.noConfusion h
  | ok mid =>
  simp only [hmi] at h
  cases hw : sg.dictGet "worker" with
  | error e => simp only [hw] at h; exact Except.noConfusion h
  | ok w =>
  simp only [hw] at h
  cases hwi : w.getAttr "id" with
  | error e => simp only [hwi] at h; exact Except.noConfusion h
  | ok wid =>
  simp only [hwi] at h
  cases hs : buildSteps steps with
  | error e => simp only [hs] at h; exact Except.noConfusion h
  | ok entries =>
  simp only [hs] at h
  cases hj : jr.getAttr "name" with
  | error e => simp only [hj] at h; exact Except.noConfusion h
  | ok jn =>
  simp only [hj] at h
  cases hsr : sr.getAttr "name" with
  | error e => simp only [hsr] at h; exact Except.noConfusion h
  | ok sn =>
  simp only [hsr] at h
  cases h
  exact ⟨m, mid, w, wid, entries, jn, sn, rfl, hmi, rfl, hwi, rfl, rfl, rfl, rfl⟩

/-- A step dict that marshals successfully contains the keys `name`,
`script_uri` and `script_args`. -/
theorem buildStepEntry_ok_elim {s entry : Value} (h : buildStepEntry s = .ok entry) :
    (∃ v, s.dictGet "name" = .ok v) ∧ (∃ v, s.dictGet "script_uri" = .ok v) ∧
      ∃ v, s.dictGet "script_args" = .ok v := by
  unfold buildStepEntry at h
  cases h1 : s.dictGet "name" with
  | error e => simp only [h1] at h; exact Except.noConfusion h
  | ok n =>
  simp only [h1] at h
  cases h2 : s.dictGet "script_uri" with
  | error e => simp only [h2] at h; exact Except.noConfusion h
  | ok uri =>
  simp only [h2] at h
  cases h3 : s.dictGet "script_args" with
  | error e => simp only [h3] at h; exact Except.noConfusion h
  | ok av =>
  exact ⟨⟨n, rfl⟩, ⟨uri, rfl⟩, ⟨av, rfl⟩⟩

/-- Every step of a step list that marshals successfully contains the keys
`name`, `script_uri` and `script_args`. -/
theorem buildSteps_ok_elim {steps entries : List Value}
    (h : buildSteps steps = .ok entries) :
    ∀ s ∈ steps, (∃ v, s.dictGet "name" = .ok v) ∧ (∃ v, s.dictGet "script_uri" = .ok v) ∧
      ∃ v, s.dictGet "script_args" = .ok v := by
  induction steps generalizing entries with
  | nil => intro s hs; cases hs
  | cons t rest ih =>
    intro s hs
    unfold buildSteps at h
    cases h1 : buildStepEntry t with
    | error e => simp only [h1] at h; exact Except.noConfusion h
    | ok entry =>
    simp only [h1] at h
    cases h2 : buildSteps rest with
    | error e => simp only [h2] at h; exact Except.noConfusion h
    | ok restEntries =>
    cases hs with
    | head => exact buildStepEntry_ok_elim h1
    | tail _ hmem => exact ih h2 s hmem

/-- C1: for every step list of length N passed to `run_job_flow` (step specs
being name, script URI and argument list), the `Steps` field of the
constructed request has exactly N entries in input order, where entry i has
`Name` equal to the i-th step's name, `ActionOnFailure` equal to `CONTINUE`,
`HadoopJarStep.Jar` equal to `command-runner.jar`, and `HadoopJarStep.Args`
equal to `["spark-submit", "--deploy-mode", "cluster", script_uri]` followed
by that step's script arguments in order. -/
theorem run_job_flow_steps_marshaling (nm lu : String) (ka : Bool)
    (apps : List String) (jfn srn mid wid : String)
    (specs : List (String × String × List Value)) :
    (buildRunJobFlowRequest nm lu ka apps (mkRole jfn) (mkRole srn)
        (mkSecurityGroups mid wid)
        (specs.map fun t => mkStepDict t.1 t.2.1 t.2.2)).bind
        (fun r => r.dictGet "Steps") =
      .ok (.list (specs.map fun t => specStepEntry t.1 t.2.1 t.2.2)) ∧
    (specs.map fun t => specStepEntry t.1 t.2.1 t.2.2).length = specs.length := by
  constructor
  · simp [buildRunJobFlowRequest, mkSecurityGroups, mkRole, Value.dictGet, Value.getAttr,
      lookupAssoc, buildSteps_mk, mkRunJobFlowRequest, Except.bind]
  · simp

/-- C3: every successfully constructed `run_job_flow` request has
`InstanceCount` 3, `MasterInstanceType` and `SlaveInstanceType` both
`m5.xlarge`, `EbsRootVolumeSize` 10, `VisibleToAllUsers` true, and
`ReleaseLabel` `emr-5.30.1`, regardless of the caller-supplied inputs. -/
theorem run_job_flow_fixed_fields (nm lu : String) (ka : Bool) (apps : List String)
    (jr sr sg : Value) (steps : List Value) (req : Value)
    (h : buildRunJobFlowRequest nm lu ka apps jr sr sg steps = .ok req) :
    req.dictGet "ReleaseLabel" = .ok (.str "emr-5.30.1") ∧
    req.dictGet "EbsRootVolumeSize" = .ok (.int 10) ∧
    req.dictGet "VisibleToAllUsers" = .ok (.bool true) ∧
    (req.dictGet "Instances").bind (fun v => v.dictGet "InstanceCount") = .ok (.int 3) ∧
    (req.dictGet "Instances").bind (fun v => v.dictGet "MasterInstanceType") =
      .ok (.str "m5.xlarge") ∧
    (req.dictGet "Instances").bind (fun v => v.dictGet "SlaveInstanceType") =
      .ok (.str "m5.xlarge") := by
  obtain ⟨m, mid, w, wid, entries, jn, sn, -, -, -, -, -, -, -, hreq⟩ := build_ok_elim h
  subst hreq
  refine ⟨?_, ?_, ?_, ?_, ?_, ?_⟩ <;>
    simp [mkRunJobFlowRequest, Value.dictGet, lookupAssoc, Except.bind]

/-- Witness for C3 at a concrete well-formed input. -/
theorem run_job_flow_fixed_fields_witness :
    buildRunJobFlowRequest "c" "s3://logs" true ["Spark"] (mkRole "jf") (mkRole "svc")
        (mkSecurityGroups "sg-m" "sg-w") [] =
      .ok (mkRunJobFlowRequest "c" "s3://logs" true ["Spark"] (.str "sg-m") (.str "sg-w")
        [] (.str "jf") (.str "svc")) ∧
    (mkRunJobFlowRequest "c" "s3://logs" true ["Spark"] (.str "sg-m") (.str "sg-w")
        [] (.str "jf") (.str "svc")).dictGet "ReleaseLabel" = .ok (.str "emr-5.30.1") :=
  ⟨rfl,
   (run_job_flow_fixed_fields "c" "s3://logs" true ["Spark"] (mkRole "jf") (mkRole "svc")
     (mkSecurityGroups "sg-m" "sg-w") []
     (mkRunJobFlowRequest "c" "s3://logs" true ["Spark"] (.str "sg-m") (.str "sg-w")
       [] (.str "jf") (.str "svc")) rfl).1⟩

/-- C4: for every cluster id, name, script URI and argument list, the
`add_job_flow_steps` request contains exactly one step whose `Args` are the
three fixed spark-submit tokens, then the script URI, then the script
arguments in order; in particular, for name `X`, script URI `s3://b/s.py`
and arguments `["--a", "1"]`, the step's `Args` are exactly
`["spark-submit", "--deploy-mode", "cluster", "s3://b/s.py", "--a", "1"]`. -/
theorem add_step_args_marshaling (cid nm uri : String) (args : List Value) :
    (mkAddStepRequest cid nm uri args).dictGet "Steps" =
      .ok (.list [specStepEntry nm uri args]) ∧
    ((((mkAddStepRequest "j-ABC" "X" "s3://b/s.py" [.str "--a", .str "1"]).dictGet
          "Steps").bind (fun s => s.index 0)).bind
        (fun st => st.dictGet "HadoopJarStep")).bind (fun hj => hj.dictGet "Args") =
      .ok (.list [.str "spark-submit", .str "--deploy-mode", .str "cluster",
        .str "s3://b/s.py", .str "--a", .str "1"]) := by
  constructor
  · simp [mkAddStepRequest, specStepEntry, Value.dictGet, lookupAssoc]
  · rfl

/-- C5: for every cluster identifier, the `terminate_job_flows` request
carries an identifier list equal exactly to the one-element list holding that
identifier, and on client success the operation returns no value (unit) with
a single success log. -/
theorem terminate_cluster_request_and_result (cid : String) :
    (mkTerminateRequest cid).dictGet "JobFlowIds" = .ok (.list [.str cid]) ∧
    ∀ (client : EmrClient) (resp : Value),
      client (mkTerminateRequest cid) = .ok resp →
      terminate_cluster cid client =
        (.ok (), [⟨"INFO", "Terminated cluster %s.", [.str cid]⟩]) := by
  constructor
  · simp [mkTerminateRequest, Value.dictGet, lookupAssoc]
  · intro client resp hc
    simp only [terminate_cluster, hc]

/-- Witness for C5 at a concrete identifier and client. -/
theorem terminate_cluster_request_and_result_witness :
    (mkTerminateRequest "j-ABC").dictGet "JobFlowIds" = .ok (.list [.str "j-ABC"]) ∧
    terminate_cluster "j-ABC" (fun _ => .ok (.dict [])) =
      (.ok (), [⟨"INFO", "Terminated cluster %s.", [.str "j-ABC"]⟩]) :=
  ⟨(terminate_cluster_request_and_result "j-ABC").1,
   (terminate_cluster_request_and_result "j-ABC").2 (fun _ => .ok (.dict [])) (.dict []) rfl⟩

/-- C2: for each of the six operations, when the remote client call raises a
`ClientError` (the failure type the remote API surfaces), the operation
re-raises exactly that error (same type and payload, no wrapping, no
suppression) and records exactly one log entry describing the failure with
the operation's context and, where one exists, the relevant identifier
(`run_job_flow` has no identifier yet and logs the operation context only). -/
theorem client_error_logged_once_and_reraised (p : Value) :
    (∀ (nm lu : String) (ka : Bool) (apps : List String) (jr sr sg : Value)
       (steps : List Value) (req : Value) (client : EmrClient),
       buildRunJobFlowRequest nm lu ka apps jr sr sg steps = .ok req →
       client req = .error (.clientError p) →
       run_job_flow nm lu ka apps jr sr sg steps client =
         (.error (.clientError p), [⟨"ERROR", "Couldn't create cluster.", []⟩])) ∧
    (∀ (cid : String) (client : EmrClient),
       client (mkDescribeClusterRequest cid) = .error (.clientError p) →
       describe_cluster cid client =
         (.error (.clientError p),
          [⟨"ERROR", "Couldn't get data for cluster %s.", [.str cid]⟩])) ∧
    (∀ (cid : String) (client : EmrClient),
       client (mkTerminateRequest cid) = .error (.clientError p) →
       terminate_cluster cid client =
         (.error (.clientError p),
          [⟨"ERROR", "Couldn't terminate cluster %s.", [.str cid]⟩])) ∧
    (∀ (cid nm uri : String) (args : List Value) (client : EmrClient),
       client (mkAddStepRequest cid nm uri args) = .error (.clientError p) →
       add_step cid nm uri args client =
         (.error (.clientError p),
          [⟨"ERROR", "Couldn't start step %s with URI %s.", [.str nm, .str uri]⟩])) ∧
    (∀ (cid : String) (client : EmrClient),
       client (mkListStepsRequest cid) = .error (.clientError p) →
       list_steps cid client =
         (.error (.clientError p),
          [⟨"ERROR", "Couldn't get steps for cluster %s.", [.str cid]⟩])) ∧
    (∀ (cid sid : String) (client : EmrClient),
       client (mkDescribeStepRequest cid sid) = .error (.clientError p) →
       describe_step cid sid client =
         (.error (.clientError p),
          [⟨"ERROR", "Couldn't get data for step %s.", [.str sid]⟩])) := by
  refine ⟨?_, ?_, ?_, ?_, ?_, ?_⟩
  · intro nm lu ka apps jr sr sg steps req client hb hc
    simp only [run_job_flow, hb, hc]
  · intro cid client hc
    simp only [describe_cluster, hc]
  · intro cid client hc
    simp only [terminate_cluster, hc]
  · intro cid nm uri args client hc
    simp only [add_step, hc]
  · intro cid client hc
    simp only [list_steps, hc]
  · intro cid sid client hc
    simp only [describe_step, hc]

/-- Witness for C2: `run_job_flow` at a concrete well-formed input against a
client raising a concrete `ClientError`. -/
theorem client_error_logged_once_and_reraised_witness :
    run_job_flow "c" "s3://logs" true [] (mkRole "jf") (mkRole "svc")
        (mkSecurityGroups "sg-m" "sg-w") []
        (fun _ => .error (.clientError (.str "AccessDenied"))) =
      (.error (.clientError (.str "AccessDenied")),
       [⟨"ERROR", "Couldn't create cluster.", []⟩]) :=
  (client_error_logged_once_and_reraised (.str "AccessDenied")).1
    "c" "s3://logs" true [] (mkRole "jf") (mkRole "svc") (mkSecurityGroups "sg-m" "sg-w") []
    (mkRunJobFlowRequest "c" "s3://logs" true [] (.str "sg-m") (.str "sg-w")
      [] (.str "jf") (.str "svc"))
    (fun _ => .error (.clientError (.str "AccessDenied"))) rfl rfl

/-- C6 (amended): for each operation, when the remote client call returns a
success response and the success-path reads on that response succeed, the
operation returns exactly the value extracted from the documented response
field: `run_job_flow` the response's `JobFlowId`, `describe_cluster` the
response's `Cluster` record (whose `Name` the success log reads),
`terminate_cluster` unit, `add_step` the first element of the response's
`StepIds`, `list_steps` the response's `Steps`, `describe_step` the
response's `Step` record. -/
theorem success_returns_extracted_field :
    (∀ (nm lu : String) (ka : Bool) (apps : List String) (jr sr sg : Value)
       (steps : List Value) (req : Value) (client : EmrClient) (resp jid : Value),
       buildRunJobFlowRequest nm lu ka apps jr sr sg steps = .ok req →
       client req = .ok resp →
       resp.dictGet "JobFlowId" = .ok jid →
       run_job_flow nm lu ka apps jr sr sg steps client =
         (.ok jid, [⟨"INFO", "Created cluster %s.", [jid]⟩])) ∧
    (∀ (cid : String) (client : EmrClient) (resp c v : Value),
       client (mkDescribeClusterRequest cid) = .ok resp →
       resp.dictGet "Cluster" = .ok c →
       c.dictGet "Name" = .ok v →
       describe_cluster cid client =
         (.ok c, [⟨"INFO", "Got data for cluster %s.", [v]⟩])) ∧
    (∀ (cid : String) (client : EmrClient) (resp : Value),
       client (mkTerminateRequest cid) = .ok resp →
       terminate_cluster cid client =
         (.ok (), [⟨"INFO", "Terminated cluster %s.", [.str cid]⟩])) ∧
    (∀ (cid nm uri : String) (args : List Value) (client : EmrClient)
       (resp ids sid : Value),
       client (mkAddStepRequest cid nm uri args) = .ok resp →
       resp.dictGet "StepIds" = .ok ids →
       ids.index 0 = .ok sid →
       add_step cid nm uri args client =
         (.ok sid, [⟨"INFO", "Started step with ID %s", [sid]⟩])) ∧
    (∀ (cid : String) (client : EmrClient) (resp steps : Value) (n : Int),
       client (mkListStepsRequest cid) = .ok resp →
       resp.dictGet "Steps" = .ok steps →
       steps.len = .ok n →
       list_steps cid client =
         (.ok steps, [⟨"INFO", "Got %s steps for cluster %s.", [.int n, .str cid]⟩])) ∧
    (∀ (cid sid : String) (client : EmrClient) (resp st : Value),
       client (mkDescribeStepRequest cid sid) = .ok resp →
       resp.dictGet "Step" = .ok st →
       describe_step cid sid client =
         (.ok st, [⟨"INFO", "Got data for step %s.", [.str sid]⟩])) := by
  refine ⟨?_, ?_, ?_, ?_, ?_, ?_⟩
  · intro nm lu ka apps jr sr sg steps req client resp jid hb hc hf
    simp only [run_job_flow, hb, hc, hf]
  · intro cid client resp c v hc hf hn
    simp only [describe_cluster, hc, hf, hn]
  · intro cid client resp hc
    simp only [terminate_cluster, hc]
  · intro cid nm uri args client resp ids sid hc hf hi
    simp only [add_step, hc, hf, hi]
  · intro cid client resp steps n hc hf hl
    simp only [list_steps, hc, hf, hl]
  · intro cid sid client resp st hc hf
    simp only [describe_step, hc, hf]

/-- Witness for C6 (amended): `run_job_flow` at a concrete well-formed input
against a client answering with a concrete `JobFlowId`. -/
theorem success_returns_extracted_field_witness :
    run_job_flow "c" "s3://logs" true [] (mkRole "jf") (mkRole "svc")
        (mkSecurityGroups "sg-m" "sg-w") []
        (fun _ => .ok (.dict [("JobFlowId", .str "j-XYZ")])) =
      (.ok (.str "j-XYZ"), [⟨"INFO", "Created cluster %s.", [.str "j-XYZ"]⟩]) :=
  success_returns_extracted_field.1
    "c" "s3://logs" true [] (mkRole "jf") (mkRole "svc") (mkSecurityGroups "sg-m" "sg-w") []
    (mkRunJobFlowRequest "c" "s3://logs" true [] (.str "sg-m") (.str "sg-w")
      [] (.str "jf") (.str "svc"))
    (fun _ => .ok (.dict [("JobFlowId", .str "j-XYZ")]))
    (.dict [("JobFlowId", .str "j-XYZ")]) (.str "j-XYZ") rfl rfl rfl

/-- Counterexample to C6 as stated: a success response whose `Cluster` record
lacks a `Name` key makes `describe_cluster` raise `KeyError("Name")` (read
for the success log) instead of returning the extracted `Cluster` record. -/
theorem describe_cluster_missing_name_counterexample :
    describe_cluster "j-1" (fun _ => .ok (.dict [("Cluster", .dict [])])) =
      (.error (.keyError "Name"), []) ∧
    (describe_cluster "j-1" (fun _ => .ok (.dict [("Cluster", .dict [])]))).1 ≠
      .ok (.dict []) := by
  refine ⟨rfl, ?_⟩
  intro h
  rw [show (describe_cluster "j-1" (fun _ => .ok (.dict [("Cluster", .dict [])]))).1 =
    Except.error (PyError.keyError "Name") from rfl] at h
  exact Except.noConfusion h

/-- C7: when the remote response's `Steps` field is an empty list,
`list_steps` returns the empty sequence and raises no error. -/
theorem list_steps_empty (cid : String) (client : EmrClient) (resp : Value)
    (hc : client (mkListStepsRequest cid) = .ok resp)
    (hf : resp.dictGet "Steps" = .ok (.list [])) :
    list_steps cid client =
      (.ok (.list []), [⟨"INFO", "Got %s steps for cluster %s.", [.int 0, .str cid]⟩]) := by
  simp only [list_steps, hc, hf, Value.len, List.length_nil, Int.ofNat_zero, Nat.cast_zero]

/-- Witness for C7 at a concrete identifier and client. -/
theorem list_steps_empty_witness :
    list_steps "j-1" (fun _ => .ok (.dict [("Steps", .list [])])) =
      (.ok (.list []), [⟨"INFO", "Got %s steps for cluster %s.", [.int 0, .str "j-1"]⟩]) :=
  list_steps_empty "j-1" (fun _ => .ok (.dict [("Steps", .list [])]))
    (.dict [("Steps", .list [])]) rfl rfl

/-- C8: every operation is stateless and deterministic — its result (value
and log records) is a function of its arguments and of the collaborator's
response to the single request it constructs, so two invocations with equal
arguments and an identical collaborator response are equal; no local state is
read or mutated between calls (in the model each operation is a pure
function whose only outputs are its result and its log records). -/
theorem ops_stateless_deterministic :
    (∀ (nm lu : String) (ka : Bool) (apps : List String) (jr sr sg : Value)
       (steps : List Value) (c₁ c₂ : EmrClient),
       (∀ req, buildRunJobFlowRequest nm lu ka apps jr sr sg steps = .ok req →
         c₁ req = c₂ req) →
       run_job_flow nm lu ka apps jr sr sg steps c₁ =
         run_job_flow nm lu ka apps jr sr sg steps c₂) ∧
    (∀ (cid : String) (c₁ c₂ : EmrClient),
       c₁ (mkDescribeClusterRequest cid) = c₂ (mkDescribeClusterRequest cid) →
       describe_cluster cid c₁ = describe_cluster cid c₂) ∧
    (∀ (cid : String) (c₁ c₂ : EmrClient),
       c₁ (mkTerminateRequest cid) = c₂ (mkTerminateRequest cid) →
       terminate_cluster cid c₁ = terminate_cluster cid c₂) ∧
    (∀ (cid nm uri : String) (args : List Value) (c₁ c₂ : EmrClient),
       c₁ (mkAddStepRequest cid nm uri args) = c₂ (mkAddStepRequest cid nm uri args) →
       add_step cid nm uri args c₁ = add_step cid nm uri args c₂) ∧
    (∀ (cid : String) (c₁ c₂ : EmrClient),
       c₁ (mkListStepsRequest cid) = c₂ (mkListStepsRequest cid) →
       list_steps cid c₁ = list_steps cid c₂) ∧
    (∀ (cid sid : String) (c₁ c₂ : EmrClient),
       c₁ (mkDescribeStepRequest cid sid) = c₂ (mkDescribeStepRequest cid sid) →
       describe_step cid sid c₁ = describe_step cid sid c₂) := by
  refine ⟨?_, ?_, ?_, ?_, ?_, ?_⟩
  · intro nm lu ka apps jr sr sg steps c₁ c₂ h
    cases hb : buildRunJobFlowRequest nm lu ka apps jr sr sg steps with
    | error e => simp only [run_job_flow, hb]
    | ok req => simp only [run_job_flow, hb, h req hb]
  · intro cid c₁ c₂ h
    simp only [describe_cluster, h]
  · intro cid c₁ c₂ h
    simp only [terminate_cluster, h]
  · intro cid nm uri args c₁ c₂ h
    simp only [add_step, h]
  · intro cid c₁ c₂ h
    simp only [list_steps, h]
  · intro cid sid c₁ c₂ h
    simp only [describe_step, h]

/-- Witness for C8: two syntactically different clients agreeing on the one
constructed request yield identical `describe_cluster` results. -/
theorem ops_stateless_deterministic_witness :
    describe_cluster "j-1" (fun _ => .ok (.dict [("Cluster", .dict [("Name", .str "c")])])) =
      describe_cluster "j-1" (fun v =>
        match v with
        | .dict (("ClusterId", _) :: _) => .ok (.dict [("Cluster", .dict [("Name", .str "c")])])
        | _ => .error (.clientError (.dict []))) :=
  ops_stateless_deterministic.2.1 "j-1"
    (fun _ => .ok (.dict [("Cluster", .dict [("Name", .str "c")])]))
    (fun v =>
      match v with
      | .dict (("ClusterId", _) :: _) => .ok (.dict [("Cluster", .dict [("Name", .str "c")])])
      | _ => .error (.clientError (.dict []))) rfl

/-- C9: `run_job_flow` builds its request only when `security_groups` is a
dict with `manager` and `worker` entries exposing an `id` attribute, both
roles expose a `name` attribute, and every step dict contains the keys
`name`, `script_uri` and `script_args`; the request carries the extracted
`id` and `name` values (not the containing objects); and when any of these
lookups fails, the call fails before the remote request is made — for every
client the result is the original lookup error with zero log entries. -/
theorem run_job_flow_input_shape (nm lu : String) (ka : Bool) (apps : List String)
    (jr sr sg : Value) (steps : List Value) :
    (∀ req, buildRunJobFlowRequest nm lu ka apps jr sr sg steps = .ok req →
      (∃ m mid, sg.dictGet "manager" = .ok m ∧ m.getAttr "id" = .ok mid ∧
        (req.dictGet "Instances").bind
          (fun v => v.dictGet "EmrManagedMasterSecurityGroup") = .ok mid) ∧
      (∃ w wid, sg.dictGet "worker" = .ok w ∧ w.getAttr "id" = .ok wid ∧
        (req.dictGet "Instances").bind
          (fun v => v.dictGet "EmrManagedSlaveSecurityGroup") = .ok wid) ∧
      (∃ jn, jr.getAttr "name" = .ok jn ∧ req.dictGet "JobFlowRole" = .ok jn) ∧
      (∃ sn, sr.getAttr "name" = .ok sn ∧ req.dictGet "ServiceRole" = .ok sn) ∧
      (∀ s ∈ steps, (∃ v, s.dictGet "name" = .ok v) ∧
        (∃ v, s.dictGet "script_uri" = .ok v) ∧
        ∃ v, s.dictGet "script_args" = .ok v)) ∧
    (∀ e, buildRunJobFlowRequest nm lu ka apps jr sr sg steps = .error e →
      ∀ client, run_job_flow nm lu ka apps jr sr sg steps client = (.error e, [])) := by
  constructor
  · intro req hreq
    obtain ⟨m, mid, w, wid, entries, jn, sn, hm, hmi, hw, hwi, hs, hj, hsr, hreqEq⟩ :=
      build_ok_elim hreq
    subst hreqEq
    refine ⟨⟨m, mid, hm, hmi, ?_⟩, ⟨w, wid, hw, hwi, ?_⟩, ⟨jn, hj, ?_⟩, ⟨sn, hsr, ?_⟩,
      buildSteps_ok_elim hs⟩ <;>
      simp [mkRunJobFlowRequest, Value.dictGet, lookupAssoc, Except.bind]
  · intro e he client
    simp only [run_job_flow, he]

/-- Witness for C9: the success half at a concrete well-formed input, and the
failure half at a `security_groups` dict missing the `manager` key, against a
client that would answer successfully (and is never consulted). -/
theorem run_job_flow_input_shape_witness :
    (∃ jn, (mkRole "jf").getAttr "name" = .ok jn ∧
      (mkRunJobFlowRequest "c" "s3://logs" true [] (.str "sg-m") (.str "sg-w")
        [] (.str "jf") (.str "svc")).dictGet "JobFlowRole" = .ok jn) ∧
    run_job_flow "c" "s3://logs" true [] (mkRole "jf") (mkRole "svc") (.dict []) []
        (fun _ => .ok (.dict [("JobFlowId", .str "j-XYZ")])) =
      (.error (.keyError "manager"), []) :=
  ⟨((run_job_flow_input_shape "c" "s3://logs" true [] (mkRole "jf") (mkRole "svc")
      (mkSecurityGroups "sg-m" "sg-w") []).1
      (mkRunJobFlowRequest "c" "s3://logs" true [] (.str "sg-m") (.str "sg-w")
        [] (.str "jf") (.str "svc")) rfl).2.2.1,
   (run_job_flow_input_shape "c" "s3://logs" true [] (mkRole "jf") (mkRole "svc")
      (.dict []) []).2 (.keyError "manager") rfl
      (fun _ => .ok (.dict [("JobFlowId", .str "j-XYZ")]))⟩

/-- C10: in every operation the catch-log-reraise behavior applies exactly
to `ClientError`: a `ClientError` raised by the client call is logged once
and re-raised unchanged, while an exception of any other type — including a
lookup failure on a success response missing its documented field
(`JobFlowId`, `Cluster`, `StepIds`, `Steps`, `Step`) or a failing read on the
extracted value — propagates to the caller unchanged with zero log entries. -/
theorem catch_exactly_client_error :
    (∀ (nm lu : String) (ka : Bool) (apps : List String) (jr sr sg : Value)
       (steps : List Value) (req : Value) (client : EmrClient),
       buildRunJobFlowRequest nm lu ka apps jr sr sg steps = .ok req →
       (∀ p, client req = .error (.clientError p) →
         run_job_flow nm lu ka apps jr sr sg steps client =
           (.error (.clientError p), [⟨"ERROR", "Couldn't create cluster.", []⟩])) ∧
       (∀ e, e.isClientError = false → client req = .error e →
         run_job_flow nm lu ka apps jr sr sg steps client = (.error e, [])) ∧
       (∀ resp e, client req = .ok resp → resp.dictGet "JobFlowId" = .error e →
         run_job_flow nm lu ka apps jr sr sg steps client = (.error e, []))) ∧
    (∀ (cid : String) (client : EmrClient),
       (∀ p, client (mkDescribeClusterRequest cid) = .error (.clientError p) →
         describe_cluster cid client =
           (.error (.clientError p),
            [⟨"ERROR", "Couldn't get data for cluster %s.", [.str cid]⟩])) ∧
       (∀ e, e.isClientError = false →
         client (mkDescribeClusterRequest cid) = .error e →
         describe_cluster cid client = (.error e, [])) ∧
       (∀ resp e, client (mkDescribeClusterRequest cid) = .ok resp →
         resp.dictGet "Cluster" = .error e →
         describe_cluster cid client = (.error e, [])) ∧
       (∀ resp c e, client (mkDescribeClusterRequest cid) = .ok resp →
         resp.dictGet "Cluster" = .ok c → c.dictGet "Name" = .error e →
         describe_cluster cid client = (.error e, []))) ∧
    (∀ (cid : String) (client : EmrClient),
       (∀ p, client (mkTerminateRequest cid) = .error (.clientError p) →
         terminate_cluster cid client =
           (.error (.clientError p),
            [⟨"ERROR", "Couldn't terminate cluster %s.", [.str cid]⟩])) ∧
       (∀ e, e.isClientError = false → client (mkTerminateRequest cid) = .error e →
         terminate_cluster cid client = (.error e, []))) ∧
    (∀ (cid nm uri : String) (args : List Value) (client : EmrClient),
       (∀ p, client (mkAddStepRequest cid nm uri args) = .error (.clientError p) →
         add_step cid nm uri args client =
           (.error (.clientError p),
            [⟨"ERROR", "Couldn't start step %s with URI %s.", [.str nm, .str uri]⟩])) ∧
       (∀ e, e.isClientError = false →
         client (mkAddStepRequest cid nm uri args) = .error e →
         add_step cid nm uri args client = (.error e, [])) ∧
       (∀ resp e, client (mkAddStepRequest cid nm uri args) = .ok resp →
         resp.dictGet "StepIds" = .error e →
         add_step cid nm uri args client = (.error e, [])) ∧
       (∀ resp ids e, client (mkAddStepRequest cid nm uri args) = .ok resp →
         resp.dictGet "StepIds" = .ok ids → ids.index 0 = .error e →
         add_step cid nm uri args client = (.error e, []))) ∧
    (∀ (cid : String) (client : EmrClient),
       (∀ p, client (mkListStepsRequest cid) = .error (.clientError p) →
         list_steps cid client =
           (.error (.clientError p),
            [⟨"ERROR", "Couldn't get steps for cluster %s.", [.str cid]⟩])) ∧
       (∀ e, e.isClientError = false → client (mkListStepsRequest cid) = .error e →
         list_steps cid client = (.error e, [])) ∧
       (∀ resp e, client (mkListStepsRequest cid) = .ok resp →
         resp.dictGet "Steps" = .error e →
         list_steps cid client = (.error e, [])) ∧
       (∀ resp steps e, client (mkListStepsRequest cid) = .ok resp →
         resp.dictGet "Steps" = .ok steps → steps.len = .error e →
         list_steps cid client = (.error e, []))) ∧
    (∀ (cid sid : String) (client : EmrClient),
       (∀ p, client (mkDescribeStepRequest cid sid) = .error (.clientError p) →
         describe_step cid sid client =
           (.error (.clientError p),
            [⟨"ERROR", "Couldn't get data for step %s.", [.str sid]⟩])) ∧
       (∀ e, e.isClientError = false →
         client (mkDescribeStepRequest cid sid) = .error e →
         describe_step cid sid client = (.error e, [])) ∧
       (∀ resp e, client (mkDescribeStepRequest cid sid) = .ok resp →
         resp.dictGet "Step" = .error e →
         describe_step cid sid client = (.error e, []))) := by
  refine ⟨?_, ?_, ?_, ?_, ?_, ?_⟩
  · intro nm lu ka apps jr sr sg steps req client hb
    refine ⟨?_, ?_, ?_⟩
    · intro p hc
      simp only [run_job_flow, hb, hc]
    · intro e hne hc
      cases e with
      | clientError q => simp [PyError.isClientError] at hne
      | keyError s => simp only [run_job_flow, hb, hc]
      | attributeError s => simp only [run_job_flow, hb, hc]
      | indexError s => simp only [run_job_flow, hb, hc]
      | typeError s => simp only [run_job_flow, hb, hc]
    · intro resp e hc hf
      simp only [run_job_flow, hb, hc, hf]
  · intro cid client
    refine ⟨?_, ?_, ?_, ?_⟩
    · intro p hc
      simp only [describe_cluster, hc]
    · intro e hne hc
      cases e with
      | clientError q => simp [PyError.isClientError] at hne
      | keyError s => simp only [describe_cluster, hc]
      | attributeError s => simp only [describe_cluster, hc]
      | indexError s => simp only [describe_cluster, hc]
      | typeError s => simp only [describe_cluster, hc]
    · intro resp e hc hf
      simp only [describe_cluster, hc, hf]
    · intro resp c e hc hf hn
      simp only [describe_cluster, hc, hf, hn]
  · intro cid client
    refine ⟨?_, ?_⟩
    · intro p hc
      simp only [terminate_cluster, hc]
    · intro e hne hc
      cases e with
      | clientError q => simp [PyError.isClientError] at hne
      | keyError s => simp only [terminate_cluster, hc]
      | attributeError s => simp only [terminate_cluster, hc]
      | indexError s => simp only [terminate_cluster, hc]
      | typeError s => simp only [terminate_cluster, hc]
  · intro cid nm uri args client
    refine ⟨?_, ?_, ?_, ?_⟩
    · intro p hc
      simp only [add_step, hc]
    · intro e hne hc
      cases e with
      | clientError q => simp [PyError.isClientError] at hne
      | keyError s => simp only [add_step, hc]
      | attributeError s => simp only [add_step, hc]
      | indexError s => simp only [add_step, hc]
      | typeError s => simp only [add_step, hc]
    · intro resp e hc hf
      simp only [add_step, hc, hf]
    · intro resp ids e hc hf hi
      simp only [add_step, hc, hf, hi]
  · intro cid client
    refine ⟨?_, ?_, ?_, ?_⟩
    · intro p hc
      simp only [list_steps, hc]
    · intro e hne hc
      cases e with
      | clientError q => simp [PyError.isClientError] at hne
      | keyError s => simp only [list_steps, hc]
      | attributeError s => simp only [list_steps, hc]
      | indexError s => simp only [list_steps, hc]
      | typeError s => simp only [list_steps, hc]
    · intro resp e hc hf
      simp only [list_steps, hc, hf]
    · intro resp steps e hc hf hl
      simp only [list_steps, hc, hf, hl]
  · intro cid sid client
    refine ⟨?_, ?_, ?_⟩
    · intro p hc
      simp only [describe_step, hc]
    · intro e hne hc
      cases e with
      | clientError q => simp [PyError.isClientError] at hne
      | keyError s => simp only [describe_step, hc]
      | attributeError s => simp only [describe_step, hc]
      | indexError s => simp only [describe_step, hc]
      | typeError s => simp only [describe_step, hc]
    · intro resp e hc hf
      simp only [describe_step, hc, hf]

/-- Witness for C10: a success response without `JobFlowId` makes
`run_job_flow` propagate the `KeyError` with zero log entries. -/
theorem catch_exactly_client_error_witness :
    run_job_flow "c" "s3://logs" true [] (mkRole "jf") (mkRole "svc")
        (mkSecurityGroups "sg-m" "sg-w") [] (fun _ => .ok (.dict [])) =
      (.error (.keyError "JobFlowId"), []) :=
  (catch_exactly_client_error.1 "c" "s3://logs" true [] (mkRole "jf") (mkRole "svc")
    (mkSecurityGroups "sg-m" "sg-w") []
    (mkRunJobFlowRequest "c" "s3://logs" true [] (.str "sg-m") (.str "sg-w")
      [] (.str "jf") (.str "svc"))
    (fun _ => .ok (.dict [])) rfl).2.2 (.dict []) (.keyError "JobFlowId") rfl rfl

end EmrBasics
